import Mathlib

/-!
Verification of the Windows filesystem JNI shim
(`src/main/native/windows/file-jni.cc`) of bazel-0.21.0-dist, together with
spec-level models of the engine it wraps (reparse classification, junction
creation, path deletion, long-path resolution, diagnostic formatting) and of
the environment accessor exercised by `src/test/cpp/blaze_util_windows_test.cc`.

The shim's behaviour is embedded directly from the C++ source.  The underlying
engine calls (`IsJunctionOrDirectorySymlink`, `GetLongPath`, `CreateJunction`,
`DeletePath`) are not part of this source tree, so each shim function takes the
outcome of its engine call as an explicit input record, making the shim a pure
function of (path, engine-call outcome, caller-supplied holders).
-/

/-- A Java `jobjectArray` of string slots, as seen by the shim: a list of
slots, each holding `none` (a null `jstring`) or `some s`. -/
structure JArray where
  elems : List (Option String)
deriving DecidableEq, Repr

/-- A possibly-null `jobjectArray` argument: `none` models a null reference. -/
abbrev ErrHolder := Option JArray

/-- Embeds `CanReportError` (file-jni.cc lines 28-31): the holder is non-null
and its array length is greater than zero. -/
def CanReportError (h : ErrHolder) : Bool :=
  match h with
  | none => false
  | some a => a.elems.length > 0

/-- Embeds `ReportLastError` (file-jni.cc lines 33-38): stores the message
string into element 0 of the holder array.  (In the C++ the callers only
invoke this under the `CanReportError` guard.) -/
def ReportLastError (msg : String) (a : JArray) : JArray :=
  ⟨a.elems.set 0 (some msg)⟩

/-- The `WSTR(__FILE__)` constant baked into every diagnostic of the shim. -/
def fileJniFile : String := "src/main/native/windows/file-jni.cc"

/-- Modelled from the spec: the Diagnostic Formatter (§4.5),
`bazel::windows::MakeErrorMessage`, whose implementation is not in this tree.
"Deterministic string composition; no I/O; pure function" combining call-site
identity (file, line, operation name), operand description and the OS-level
error message. -/
def MakeErrorMessage (file : String) (line : Nat) (fn : String)
    (operand : String) (msg : String) : String :=
  "ERROR: " ++ file ++ "(" ++ toString line ++ "): " ++ fn ++ "(" ++
    operand ++ "): " ++ msg

/-- Modelled from the spec: the `DWORD err_code` overload of
`MakeErrorMessage` — "Must render the OS error code numerically". -/
def MakeErrorMessageFromCode (file : String) (line : Nat) (fn : String)
    (operand : String) (code : Nat) : String :=
  MakeErrorMessage file line fn operand ("error code " ++ toString code)

/-- Modelled from the spec: the sentinel classification code signalling
`Error` returned by `IsJunctionOrDirectorySymlink` ("negative/sentinel code
signals `Error`", §6); the defining header is not in this tree. -/
def IS_JUNCTION_ERROR : Int := 2

/-- The observable outcome of one completed `IsJunctionOrDirectorySymlink`
call: the classification code it returned and the value `GetLastError()`
holds afterwards. -/
structure ClassifyCall where
  result : Int
  lastError : Nat
deriving DecidableEq, Repr

/-- Embeds `nativeIsJunction` (file-jni.cc lines 40-54): returns the
classifier's code unchanged; when that code is the error sentinel and the
caller's holder is usable, captures the error code of the completed call and
stores the formatted diagnostic into element 0. -/
def nativeIsJunction (wpath : String) (call : ClassifyCall)
    (error_msg_holder : ErrHolder) : Int × ErrHolder :=
  if call.result = IS_JUNCTION_ERROR ∧ CanReportError error_msg_holder then
    (call.result, error_msg_holder.map (ReportLastError
      (MakeErrorMessageFromCode fileJniFile 49 "nativeIsJunction" wpath
        call.lastError)))
  else
    (call.result, error_msg_holder)

/-- The observable outcome of one completed `GetLongPath` call: the error
string it returned (empty means success) and the contents of the output
buffer (`none` models the untouched null `unique_ptr`, which `GetLongPath`
leaves null on failure). -/
structure LongPathCall where
  error : String
  resolved : Option String
deriving DecidableEq, Repr

/-- Embeds `nativeGetLongPath` (file-jni.cc lines 56-75).  Note the source's
guard: only when the resolution failed AND the error holder is usable does it
report and return `JNI_FALSE`; otherwise it falls through, stores the buffer
contents into element 0 of `result_holder` (on a failed resolution this reads
a null pointer in the C++) and returns `JNI_TRUE`. -/
def nativeGetLongPath (wpath : String) (call : LongPathCall)
    (result_holder : JArray) (error_msg_holder : ErrHolder) :
    Bool × JArray × ErrHolder :=
  if call.error ≠ "" ∧ CanReportError error_msg_holder then
    (false, result_holder, error_msg_holder.map (ReportLastError
      (MakeErrorMessage fileJniFile 65 "nativeGetLongPath" wpath call.error)))
  else
    (true, ⟨result_holder.elems.set 0 call.resolved⟩, error_msg_holder)

namespace CreateJunctionResult

/-- Modelled from the spec: `CreateJunctionResult::kSuccess` ("codes:
success=0", §6); the defining header is not in this tree. -/
def kSuccess : Int := 0

end CreateJunctionResult

/-- The observable outcome of one completed engine `CreateJunction` call:
its result code and the error string it may have filled. -/
structure CreateJunctionCall where
  result : Int
  error : String
deriving DecidableEq, Repr

/-- Embeds `nativeCreateJunction` (file-jni.cc lines 77-93): returns the
engine's result code unchanged; reports a diagnostic only when the result is
not `kSuccess`, the engine filled the error string, and the holder is
usable. -/
def nativeCreateJunction (wname wtarget : String) (call : CreateJunctionCall)
    (error_msg_holder : ErrHolder) : Int × ErrHolder :=
  if call.result ≠ CreateJunctionResult.kSuccess ∧ call.error ≠ "" ∧
      CanReportError error_msg_holder then
    (call.result, error_msg_holder.map (ReportLastError
      (MakeErrorMessage fileJniFile 88 "nativeCreateJunction"
        (wname ++ ", " ++ wtarget) call.error)))
  else
    (call.result, error_msg_holder)

namespace DeletePathResult

/-- Modelled from the spec: `DeletePathResult::kSuccess` ("same coding
convention", §6); the defining header is not in this tree. -/
def kSuccess : Int := 0

end DeletePathResult

/-- The observable outcome of one completed engine `DeletePath` call. -/
structure DeletePathCall where
  result : Int
  error : String
deriving DecidableEq, Repr

/-- Embeds `nativeDeletePath` (file-jni.cc lines 95-109): returns the engine's
result code unchanged; reports a diagnostic only when the result is not
`kSuccess`, the engine filled the error string, and the holder is usable. -/
def nativeDeletePath (wpath : String) (call : DeletePathCall)
    (error_msg_holder : ErrHolder) : Int × ErrHolder :=
  if call.result ≠ DeletePathResult.kSuccess ∧ call.error ≠ "" ∧
      CanReportError error_msg_holder then
    (call.result, error_msg_holder.map (ReportLastError
      (MakeErrorMessage fileJniFile 104 "nativeDeletePath" wpath call.error)))
  else
    (call.result, error_msg_holder)

/-!
Spec-level models of the engine behind the shim.  The engine source
(`src/main/native/windows/file.cc`) is not part of this tree; only the spec
describes it, so the following definitions are modelled from the spec.
-/

/-- One filesystem entry, as the spec's Reparse Classifier distinguishes them
(§2, §4.2): a regular file, an empty plain directory, a non-empty plain
directory, a junction with its stored target, or a directory symlink. -/
inductive FsEntry where
  | file
  | emptyDir
  | nonemptyDir
  | junction (target : String)
  | dirSymlink (target : String)
deriving DecidableEq, Repr

/-- A point-in-time filesystem snapshot: a finite association of paths to
entries (first binding wins). -/
abbrev Fs := List (String × FsEntry)

/-- Look up the entry at a path in a snapshot. -/
def lookupFs (fs : Fs) (p : String) : Option FsEntry :=
  (fs.find? (fun e => e.1 == p)).map Prod.snd

/-- Remove the entry at a path from a snapshot. -/
def removeFs (fs : Fs) (p : String) : Fs :=
  fs.filter (fun e => e.1 != p)

/-- The spec's `JunctionCreationOutcome` (§3). -/
inductive JunctionCreationOutcome where
  | Success
  | AlreadyExistsSame
  | AlreadyExistsDifferent
  | Error
deriving DecidableEq, Repr

/-- Modelled from the spec: the Junction Manager's `CreateJunction` (§4.3),
whose implementation is not in this tree.  If `link` already exists it is
classified: a junction already pointing at `target` yields
`AlreadyExistsSame` with no re-creation; anything else existing yields
`AlreadyExistsDifferent` with no destructive action.  If `link` does not
exist, the OS creation primitive runs (its own failure, abstracted by
`osFails`, becomes `Error`); on success exactly one new reparse point is
created and `target` is never touched. -/
def CreateJunction (osFails : Bool) (fs : Fs) (link target : String) :
    JunctionCreationOutcome × Fs :=
  match lookupFs fs link with
  | some (FsEntry.junction t) =>
    if t = target then (JunctionCreationOutcome.AlreadyExistsSame, fs)
    else (JunctionCreationOutcome.AlreadyExistsDifferent, fs)
  | some _ => (JunctionCreationOutcome.AlreadyExistsDifferent, fs)
  | none =>
    if osFails then (JunctionCreationOutcome.Error, fs)
    else (JunctionCreationOutcome.Success, (link, FsEntry.junction target) :: fs)

/-- The spec's `PathDeletionOutcome` (§3). -/
inductive PathDeletionOutcome where
  | Success
  | DoesNotExist
  | DirectoryNotEmpty
  | AccessDenied
  | Error
deriving DecidableEq, Repr

/-- Modelled from the spec: the Path Deleter's `Delete` (§4.4), whose
implementation is not in this tree.  Step 1 classifies the target; a
nonexistent path yields `DoesNotExist` (idempotent, not an error).  Step 2
dispatches: a non-empty plain directory yields `DirectoryNotEmpty` without
attempting removal; every other existing entry is removed by the appropriate
single OS primitive, whose denial (abstracted by `osDenies`) maps to
`AccessDenied`. -/
def DeletePath (osDenies : String → Bool) (fs : Fs) (p : String) :
    PathDeletionOutcome × Fs :=
  match lookupFs fs p with
  | none => (PathDeletionOutcome.DoesNotExist, fs)
  | some FsEntry.nonemptyDir => (PathDeletionOutcome.DirectoryNotEmpty, fs)
  | some _ =>
    if osDenies p then (PathDeletionOutcome.AccessDenied, fs)
    else (PathDeletionOutcome.Success, removeFs fs p)

/-!
Spec-level model of the Environment Shadow Accessor (§4.6).  The
implementations of `GetEnv`/`SetEnv`/`UnsetEnv` live in
`src/main/cpp/blaze_util_windows.cc`, which is not in this tree; only their
test (`src/test/cpp/blaze_util_windows_test.cc`) is, so the accessor is
modelled from the spec: case-insensitive name matching over the process-wide
environment block.
-/

/-- Lower-cases every character of a string (the test's `blaze_util::AsLower`,
used to form case-variants of environment names). -/
def AsLower (s : String) : String :=
  String.mk (s.data.map Char.toLower)

/-- The process environment block: name-value bindings, first binding wins. -/
abbrev EnvBlock := List (String × String)

/-- Modelled from the spec: case-insensitive `Get(name) -> value|absent`
(§4.6). -/
def GetEnv (env : EnvBlock) (name : String) : Option String :=
  (env.find? (fun p => AsLower p.1 == AsLower name)).map Prod.snd

/-- Modelled from the spec: `Unset(name)` — leaves the name absent under
every case-variant (§4.6). -/
def UnsetEnv (env : EnvBlock) (name : String) : EnvBlock :=
  env.filter (fun p => AsLower p.1 != AsLower name)

/-- Modelled from the spec: `Set(name, value)`; "setting a name to the empty
string is equivalent to unsetting it" (§4.6) — the underlying OS primitive is
called with a null value exactly when `value` is empty, which deletes the
variable. -/
def SetEnv (env : EnvBlock) (name value : String) : EnvBlock :=
  if value = "" then UnsetEnv env name
  else (name, value) :: UnsetEnv env name

/-!
Helper lemmas shared by the claim theorems.
-/

/-- Reads slot `i` of a possibly-null holder. -/
def holderGet (h : ErrHolder) (i : Nat) : Option (Option String) :=
  match h with
  | none => none
  | some a => a.elems[i]?

/-- The array length of a possibly-null holder. -/
def holderLen (h : ErrHolder) : Option Nat :=
  h.map (fun a => a.elems.length)

theorem MakeErrorMessage_ne_empty (file : String) (line : Nat)
    (fn operand msg : String) :
    MakeErrorMessage file line fn operand msg ≠ "" := by
  unfold MakeErrorMessage
  intro hcontra
  have hlen := congrArg String.length hcontra
  simp [String.length_append] at hlen
  exact absurd hlen.1.1.1.1.1.1.1.1.1 (by decide)

theorem holderGet_report_ne (msg : String) (h : ErrHolder) (i : Nat)
    (hi : i ≠ 0) :
    holderGet (h.map (ReportLastError msg)) i = holderGet h i := by
  cases h with
  | none => rfl
  | some a =>
    simp [holderGet, ReportLastError, List.getElem?_set_ne (Ne.symm hi)]

theorem holderLen_report (msg : String) (h : ErrHolder) :
    holderLen (h.map (ReportLastError msg)) = holderLen h := by
  cases h <;> simp [holderLen, ReportLastError]

/-- C1: in every boundary operation the caller-supplied error-message holder
is written only when the holder is usable (non-null, positive length) and the
operation failed: on a successful outcome, or when the caller opted out of
diagnostics, the holder is returned unchanged. -/
theorem errorHolder_written_only_on_failure
    (wpath wname wtarget : String) (cj : ClassifyCall) (lp : LongPathCall)
    (cc : CreateJunctionCall) (dc : DeletePathCall)
    (rh : JArray) (h : ErrHolder) :
    ((cj.result ≠ IS_JUNCTION_ERROR ∨ CanReportError h = false) →
        (nativeIsJunction wpath cj h).2 = h)
  ∧ ((lp.error = "" ∨ CanReportError h = false) →
        (nativeGetLongPath wpath lp rh h).2.2 = h)
  ∧ ((cc.result = CreateJunctionResult.kSuccess ∨ CanReportError h = false) →
        (nativeCreateJunction wname wtarget cc h).2 = h)
  ∧ ((dc.result = DeletePathResult.kSuccess ∨ CanReportError h = false) →
        (nativeDeletePath wpath dc h).2 = h) := by
  refine ⟨fun hc => ?_, fun hc => ?_, fun hc => ?_, fun hc => ?_⟩ <;>
    rcases hc with hc | hc <;>
    simp [nativeIsJunction, nativeGetLongPath, nativeCreateJunction,
      nativeDeletePath, hc]

/-- Witness for C1 at concrete inputs: a successful classification, a
successful resolution, a successful junction creation and a successful
deletion, each with a usable one-element holder, leave the holder unchanged. -/
theorem errorHolder_written_only_on_failure_witness :
    (nativeIsJunction "p" ⟨0, 5⟩ (some ⟨[none]⟩)).2 = some ⟨[none]⟩
  ∧ (nativeGetLongPath "p" ⟨"", some "r"⟩ ⟨[none]⟩ (some ⟨[none]⟩)).2.2 =
        some ⟨[none]⟩
  ∧ (nativeCreateJunction "l" "t" ⟨0, ""⟩ (some ⟨[none]⟩)).2 = some ⟨[none]⟩
  ∧ (nativeDeletePath "p" ⟨0, ""⟩ (some ⟨[none]⟩)).2 = some ⟨[none]⟩ := by
  obtain ⟨h1, h2, h3, h4⟩ := errorHolder_written_only_on_failure
    "p" "l" "t" ⟨0, 5⟩ ⟨"", some "r"⟩ ⟨0, ""⟩ ⟨0, ""⟩ ⟨[none]⟩ (some ⟨[none]⟩)
  exact ⟨h1 (Or.inl (by decide)), h2 (Or.inl rfl), h3 (Or.inl rfl),
    h4 (Or.inl rfl)⟩

/-- C4: `nativeIsJunction` returns the classifier's code unchanged, and in
the error-sentinel case the delivered diagnostic is a function only of the
completed classification call's recorded outputs (`result`, and the
`GetLastError` value captured after the call returned) — in this embedding
the call record exists only once the call has completed, so the diagnostic
never reflects in-flight state. -/
theorem isJunction_code_and_postCall_diagnostic (wpath : String)
    (call : ClassifyCall) (h : ErrHolder) :
    (nativeIsJunction wpath call h).1 = call.result
  ∧ (call.result = IS_JUNCTION_ERROR → CanReportError h = true →
      (nativeIsJunction wpath call h).2 = h.map (ReportLastError
        (MakeErrorMessageFromCode fileJniFile 49 "nativeIsJunction" wpath
          call.lastError))) := by
  constructor
  · unfold nativeIsJunction
    split <;> rfl
  · intro h1 h2
    simp [nativeIsJunction, h1, h2]

/-- Witness for C4: a failing classification (code 2, last error 5) with a
one-element holder returns the code unchanged and delivers the diagnostic
built from the completed call's error code. -/
theorem isJunction_code_and_postCall_diagnostic_witness :
    (nativeIsJunction "p" ⟨2, 5⟩ (some ⟨[none]⟩)).1 = 2
  ∧ (nativeIsJunction "p" ⟨2, 5⟩ (some ⟨[none]⟩)).2 =
      (some (⟨[none]⟩ : JArray)).map (ReportLastError
        (MakeErrorMessageFromCode fileJniFile 49 "nativeIsJunction" "p" 5)) := by
  obtain ⟨h1, h2⟩ := isJunction_code_and_postCall_diagnostic "p" ⟨2, 5⟩
    (some ⟨[none]⟩)
  exact ⟨h1, h2 rfl rfl⟩

/-- C9: whenever `nativeGetLongPath` returns false, element 0 of the
caller-supplied error holder has been set to a non-empty diagnostic string —
a false return is never silent, because the false branch is reachable only
when the holder was usable and the diagnostic was delivered. -/
theorem getLongPath_false_never_silent (wpath : String) (call : LongPathCall)
    (rh : JArray) (h : ErrHolder)
    (hf : (nativeGetLongPath wpath call rh h).1 = false) :
    ∃ msg, msg ≠ "" ∧
      holderGet (nativeGetLongPath wpath call rh h).2.2 0 = some (some msg) := by
  by_cases hcond : call.error ≠ "" ∧ CanReportError h = true
  · obtain ⟨herr, hcan⟩ := hcond
    refine ⟨MakeErrorMessage fileJniFile 65 "nativeGetLongPath" wpath
      call.error, MakeErrorMessage_ne_empty _ _ _ _ _, ?_⟩
    unfold nativeGetLongPath
    rw [if_pos ⟨herr, hcan⟩]
    cases h with
    | none => simp [CanReportError] at hcan
    | some a =>
      have hlen : 0 < a.elems.length := by
        simpa [CanReportError] using hcan
      simp [holderGet, ReportLastError, List.getElem?_set_self hlen]
  · unfold nativeGetLongPath at hf
    rw [if_neg hcond] at hf
    simp at hf

/-- Witness for C9: a failing resolution with a one-element holder returns
false and leaves a non-empty diagnostic in slot 0. -/
theorem getLongPath_false_never_silent_witness :
    ∃ msg, msg ≠ "" ∧
      holderGet (nativeGetLongPath "p" ⟨"boom", none⟩ ⟨[none]⟩
        (some ⟨[none]⟩)).2.2 0 = some (some msg) :=
  getLongPath_false_never_silent "p" ⟨"boom", none⟩ ⟨[none]⟩ (some ⟨[none]⟩)
    (by decide)

/-- C10: error reporting writes only element 0 of the caller-supplied holder:
in all four operations every other slot and the array length are unchanged,
and in the reporting branch of `nativeGetLongPath` the result holder is
returned unchanged as well. -/
theorem report_writes_only_slot_zero
    (wpath wname wtarget : String) (cj : ClassifyCall) (lp : LongPathCall)
    (cc : CreateJunctionCall) (dc : DeletePathCall)
    (rh : JArray) (h : ErrHolder) (i : Nat) (hi : i ≠ 0) :
    (holderGet (nativeIsJunction wpath cj h).2 i = holderGet h i
      ∧ holderLen (nativeIsJunction wpath cj h).2 = holderLen h)
  ∧ (holderGet (nativeGetLongPath wpath lp rh h).2.2 i = holderGet h i
      ∧ holderLen (nativeGetLongPath wpath lp rh h).2.2 = holderLen h
      ∧ ((nativeGetLongPath wpath lp rh h).1 = false →
          (nativeGetLongPath wpath lp rh h).2.1 = rh))
  ∧ (holderGet (nativeCreateJunction wname wtarget cc h).2 i = holderGet h i
      ∧ holderLen (nativeCreateJunction wname wtarget cc h).2 = holderLen h)
  ∧ (holderGet (nativeDeletePath wpath dc h).2 i = holderGet h i
      ∧ holderLen (nativeDeletePath wpath dc h).2 = holderLen h) := by
  refine ⟨⟨?_, ?_⟩, ⟨?_, ?_, ?_⟩, ⟨?_, ?_⟩, ⟨?_, ?_⟩⟩ <;>
    [ (unfold nativeIsJunction); (unfold nativeIsJunction);
      (unfold nativeGetLongPath); (unfold nativeGetLongPath);
      (unfold nativeGetLongPath); (unfold nativeCreateJunction);
      (unfold nativeCreateJunction); (unfold nativeDeletePath);
      (unfold nativeDeletePath) ] <;>
    split <;>
    simp [holderGet_report_ne _ _ _ hi, holderLen_report]

/-- Witness for C10 at slot 1 of a two-element holder, for a failing run of
each operation. -/
theorem report_writes_only_slot_zero_witness :
    (holderGet (nativeIsJunction "p" ⟨2, 5⟩ (some ⟨[none, none]⟩)).2 1 =
        holderGet (some ⟨[none, none]⟩) 1
      ∧ holderLen (nativeIsJunction "p" ⟨2, 5⟩ (some ⟨[none, none]⟩)).2 =
        holderLen (some ⟨[none, none]⟩))
  ∧ (holderGet (nativeGetLongPath "p" ⟨"boom", none⟩ ⟨[none]⟩
        (some ⟨[none, none]⟩)).2.2 1 = holderGet (some ⟨[none, none]⟩) 1
      ∧ holderLen (nativeGetLongPath "p" ⟨"boom", none⟩ ⟨[none]⟩
          (some ⟨[none, none]⟩)).2.2 = holderLen (some ⟨[none, none]⟩)
      ∧ ((nativeGetLongPath "p" ⟨"boom", none⟩ ⟨[none]⟩
            (some ⟨[none, none]⟩)).1 = false →
          (nativeGetLongPath "p" ⟨"boom", none⟩ ⟨[none]⟩
            (some ⟨[none, none]⟩)).2.1 = ⟨[none]⟩))
  ∧ (holderGet (nativeCreateJunction "l" "t" ⟨1, "boom"⟩
        (some ⟨[none, none]⟩)).2 1 = holderGet (some ⟨[none, none]⟩) 1
      ∧ holderLen (nativeCreateJunction "l" "t" ⟨1, "boom"⟩
          (some ⟨[none, none]⟩)).2 = holderLen (some ⟨[none, none]⟩))
  ∧ (holderGet (nativeDeletePath "p" ⟨1, "boom"⟩
        (some ⟨[none, none]⟩)).2 1 = holderGet (some ⟨[none, none]⟩) 1
      ∧ holderLen (nativeDeletePath "p" ⟨1, "boom"⟩
          (some ⟨[none, none]⟩)).2 = holderLen (some ⟨[none, none]⟩)) :=
  report_writes_only_slot_zero "p" "l" "t" ⟨2, 5⟩ ⟨"boom", none⟩ ⟨1, "boom"⟩
    ⟨1, "boom"⟩ ⟨[none]⟩ (some ⟨[none, none]⟩) 1 (by decide)

/-- C2 fails on the code at `nativeGetLongPath`: with a failing resolution
the returned success flag differs between the run where the caller supplies a
one-element error holder (false) and the run where it supplies none (true) —
opting out of diagnostics changes the returned status. -/
theorem getLongPath_status_depends_on_slot :
    (nativeGetLongPath "p" ⟨"boom", none⟩ ⟨[none]⟩ (some ⟨[none]⟩)).1 = false
  ∧ (nativeGetLongPath "p" ⟨"boom", none⟩ ⟨[none]⟩ none).1 = true := by
  decide

/-- C3 fails on the code: a failing resolution (non-empty engine error
string) with no error holder supplied returns true, not false — and in the
C++ this very path additionally reads through the null output pointer. -/
theorem getLongPath_true_despite_failure :
    ("boom" : String) ≠ ""
  ∧ (nativeGetLongPath "q" ⟨"boom", none⟩ ⟨[none]⟩ none).1 = true := by
  decide

theorem lookupFs_cons_self (fs : Fs) (L : String) (e : FsEntry) :
    lookupFs ((L, e) :: fs) L = some e := by
  simp [lookupFs, List.find?]

theorem CreateJunction_existing_same (osFails : Bool) (fs : Fs) (L T : String)
    (h : lookupFs fs L = some (FsEntry.junction T)) :
    CreateJunction osFails fs L T =
      (JunctionCreationOutcome.AlreadyExistsSame, fs) := by
  unfold CreateJunction
  rw [h]
  simp

theorem CreateJunction_success_shape (osFails : Bool) (fs : Fs) (L T : String)
    (hs : (CreateJunction osFails fs L T).1 =
      JunctionCreationOutcome.Success) :
    lookupFs fs L = none ∧
    (CreateJunction osFails fs L T).2 = (L, FsEntry.junction T) :: fs := by
  unfold CreateJunction at hs ⊢
  cases hlook : lookupFs fs L with
  | some e =>
    rw [hlook] at hs
    cases e <;> (try split at hs) <;> (try split at hs) <;> simp_all
  | none =>
    rw [hlook] at hs
    cases osFails with
    | true => simp at hs
    | false => simp

/-- C5: when `CreateJunction(L, T)` returns `Success`, calling it again with
identical arguments and no intervening filesystem mutation returns
`AlreadyExistsSame` and leaves the filesystem snapshot exactly as the first
call left it — the second call creates and destroys nothing. -/
theorem CreateJunction_idempotent (osFails1 osFails2 : Bool) (fs : Fs)
    (L T : String)
    (hs : (CreateJunction osFails1 fs L T).1 =
      JunctionCreationOutcome.Success) :
    (CreateJunction osFails2 (CreateJunction osFails1 fs L T).2 L T).1 =
        JunctionCreationOutcome.AlreadyExistsSame
  ∧ (CreateJunction osFails2 (CreateJunction osFails1 fs L T).2 L T).2 =
        (CreateJunction osFails1 fs L T).2 := by
  obtain ⟨hnone, hshape⟩ := CreateJunction_success_shape osFails1 fs L T hs
  rw [hshape]
  have h2 := CreateJunction_existing_same osFails2
    ((L, FsEntry.junction T) :: fs) L T (lookupFs_cons_self fs L _)
  rw [h2]
  exact ⟨rfl, rfl⟩

/-- Witness for C5: creating junction L -> T on an empty snapshot succeeds,
and the repeated call returns `AlreadyExistsSame` without changing the
snapshot. -/
theorem CreateJunction_idempotent_witness :
    (CreateJunction false (CreateJunction false [] "L" "T").2 "L" "T").1 =
        JunctionCreationOutcome.AlreadyExistsSame
  ∧ (CreateJunction false (CreateJunction false [] "L" "T").2 "L" "T").2 =
        (CreateJunction false [] "L" "T").2 :=
  CreateJunction_idempotent false false [] "L" "T" (by decide)

/-- C6: deleting a path that does not exist returns `DoesNotExist` — never an
`Error` outcome — and mutates nothing: absence is a legitimate idempotent
terminal state. -/
theorem DeletePath_nonexistent (osDenies : String → Bool) (fs : Fs)
    (p : String) (h : lookupFs fs p = none) :
    (DeletePath osDenies fs p).1 = PathDeletionOutcome.DoesNotExist
  ∧ (DeletePath osDenies fs p).1 ≠ PathDeletionOutcome.Error
  ∧ (DeletePath osDenies fs p).2 = fs := by
  unfold DeletePath
  rw [h]
  exact ⟨rfl, by simp, rfl⟩

/-- Witness for C6: deleting "p" on a snapshot that only holds "q", with an
OS that would deny everything, still reports `DoesNotExist`. -/
theorem DeletePath_nonexistent_witness :
    (DeletePath (fun _ => true) [("q", FsEntry.file)] "p").1 =
        PathDeletionOutcome.DoesNotExist
  ∧ (DeletePath (fun _ => true) [("q", FsEntry.file)] "p").1 ≠
        PathDeletionOutcome.Error
  ∧ (DeletePath (fun _ => true) [("q", FsEntry.file)] "p").2 =
        [("q", FsEntry.file)] :=
  DeletePath_nonexistent (fun _ => true) [("q", FsEntry.file)] "p" (by decide)

theorem GetEnv_UnsetEnv_absent (env : EnvBlock) (name v : String)
    (hc : AsLower v = AsLower name) :
    GetEnv (UnsetEnv env name) v = none := by
  unfold GetEnv UnsetEnv
  rw [List.find?_eq_none.mpr]
  · rfl
  · intro x hx
    have h2 := (List.mem_filter.mp hx).2
    simp only [bne_iff_ne, ne_eq] at h2
    simp only [beq_iff_eq, hc]
    exact h2

/-- C7: after `SetEnv(name, value)` with a non-empty value, `GetEnv` applied
to any case-variant of `name` (any string with the same lower-cased form,
including the lower-cased form itself) returns exactly `value`; the names and
values are arbitrary strings, so no length limit applies. -/
theorem SetEnv_GetEnv_case_insensitive (env : EnvBlock) (name value v : String)
    (hv : value ≠ "") (hc : AsLower v = AsLower name) :
    GetEnv (SetEnv env name value) v = some value := by
  unfold SetEnv
  rw [if_neg hv]
  unfold GetEnv
  rw [List.find?_cons_of_pos _ (by simp [hc])]
  rfl

/-- Witness for C7: `Set("Foo", "x")` then `Get("fOO")` yields `"x"`. -/
theorem SetEnv_GetEnv_case_insensitive_witness :
    GetEnv (SetEnv [] "Foo" "x") "fOO" = some "x" :=
  SetEnv_GetEnv_case_insensitive [] "Foo" "x" "fOO" (by decide) (by decide)

/-- C8: `SetEnv(name, "")` is observably equivalent to `UnsetEnv(name)`:
`GetEnv` gives the same answer after either, for every queried key, and every
case-variant of `name` is reported absent afterwards. -/
theorem SetEnv_empty_equiv_UnsetEnv (env : EnvBlock) (name v : String) :
    (∀ w, GetEnv (SetEnv env name "") w = GetEnv (UnsetEnv env name) w)
  ∧ (AsLower v = AsLower name → GetEnv (SetEnv env name "") v = none) := by
  constructor
  · intro w
    rfl
  · intro hc
    unfold SetEnv
    rw [if_pos rfl]
    exact GetEnv_UnsetEnv_absent env name v hc

/-- Witness for C8: `Set("Foo", "x")` then `Set("Foo", "")` leaves `"foo"`
absent, exactly as `Unset("Foo")` would. -/
theorem SetEnv_empty_equiv_UnsetEnv_witness :
    GetEnv (SetEnv [("Foo", "x")] "Foo" "") "foo" =
        GetEnv (UnsetEnv [("Foo", "x")] "Foo") "foo"
  ∧ GetEnv (SetEnv [("Foo", "x")] "Foo" "") "foo" = none := by
  obtain ⟨h1, h2⟩ := SetEnv_empty_equiv_UnsetEnv [("Foo", "x")] "Foo" "foo"
  exact ⟨h1 "foo", h2 (by decide)⟩
